import Mathlib

/-!
Verification development for the AlarmDial firmware control core
(`AlarmDial.c`).  The C program is shallowly embedded: C strings are
modelled as lists of byte values (the characters before the terminating
NUL), the 1024-byte flash record as a list of byte values, machine
`uint8_t` arithmetic as `Nat` arithmetic mod 256, timestamps
(microseconds) as `Int`, and the main control loop as a step function
on an explicit state record.  On the Pico (ARM EABI) plain `char` is
unsigned, so bytes range over 0..255.
-/

set_option maxRecDepth 1000000
set_option maxHeartbeats 1000000

namespace AlarmDial

/-- Byte-list of an ASCII string literal.  A C string is modelled as the
list of its byte values before the terminating NUL. -/
def strB (s : String) : List Nat := s.data.map Char.toNat

/-- Read of a C character buffer at an index.  At the index just past the
content this yields 0, matching the NUL terminator; the modelled code
paths never let a read further past the terminator influence an
observable outcome (see the comments at the uses). -/
def cAt (l : List Nat) (i : Nat) : Nat := l.getD i 0

/-- `strncmp(a0, b0, n) == 0` for C strings with NUL-free contents `a`, `b`
coincides with equality of the length-`n` prefixes of the content
lists.  (If one string ends before `n` characters, `strncmp` compares
the NUL terminator against the other string's next character, which is
exactly what comparing `List.take n` of the content lists decides.) -/
def strncmpEq (a b : List Nat) (n : Nat) : Prop := a.take n = b.take n

instance instDecStrncmpEq (a b : List Nat) (n : Nat) : Decidable (strncmpEq a b n) := by
  unfold strncmpEq; infer_instance

/-- `strstr(h, n) != NULL`: some suffix of `h` has `n` as a prefix. -/
def hasSub (h n : List Nat) : Bool :=
  (List.range (h.length + 1)).any (fun i => n.isPrefixOf (h.drop i))

/-! ## Configuration (AlarmDial.c lines 291-303)

The runtime configuration: `passw` (a `char[7]` buffer, six password
characters plus NUL), `tel_no` (`char[50]`), per-pin notification
messages (`char[50]` each) and per-pin SMS-on-change booleans, for
`GPIO_NUMBER_PINS = 3` pins.  Strings are modelled by their NUL-free
content lists. -/

structure Config where
  passw : List Nat
  tel_no : List Nat
  sms_on_fall : List (List Nat)
  sms_on_rise : List (List Nat)
  send_sms_on_change : List Bool
  deriving Repr, DecidableEq

/-- The default configuration (AlarmDial.c lines 292-296). -/
def defaultConfig : Config where
  passw := strB "674358"
  tel_no := strB "+447700900000"
  sms_on_fall := [strB "Intruder alarm triggered", strB "Alarm system armed", strB "Panic button pressed"]
  sms_on_rise := [strB "Intruder alarm cleared", strB "Alarm system disarmed", strB "Panic button cleared"]
  send_sms_on_change := [true, true, true]

/-- The valid domain of configurations: a 6-character NUL-free password,
destination number and per-pin messages of at most 49 NUL-free
characters each, and three per-pin booleans. -/
def ValidConfig (c : Config) : Prop :=
  c.passw.length = 6 ∧ 0 ∉ c.passw ∧
  c.tel_no.length ≤ 49 ∧ 0 ∉ c.tel_no ∧
  c.sms_on_fall.length = 3 ∧ (∀ m ∈ c.sms_on_fall, m.length ≤ 49 ∧ 0 ∉ m) ∧
  c.sms_on_rise.length = 3 ∧ (∀ m ∈ c.sms_on_rise, m.length ≤ 49 ∧ 0 ∉ m) ∧
  c.send_sms_on_change.length = 3

instance instDecValidConfig (c : Config) : Decidable (ValidConfig c) := by
  unfold ValidConfig; infer_instance

/-! ## Persistent flash record (AlarmDial.c lines 349-406, 1013-1045)

`FLASH_SETTINGS_BYTES = 1024`.  Byte 0 is the checksum; the fields
follow from byte 1 on. -/

/-- The 8-bit checksum of a record: `checksum = checksum + flash_settings[i]`
over `i = 1 .. 1023` in `uint8_t` arithmetic (lines 351-353 and
1035-1037), i.e. the sum of all bytes after byte 0, mod 256. -/
def checksum (f : List Nat) : Nat := (f.drop 1).sum % 256

/-- C `bool` stored into a `char` (line 1034). -/
def boolByte (b : Bool) : Nat := if b then 1 else 0

/-- The serialised payload written at bytes 1.. of the record (lines
1017-1034): the seven bytes of the `passw` buffer (six characters plus
NUL for a valid password), then `tel_no`, the three `sms_on_fall`
messages and the three `sms_on_rise` messages, each with its NUL
terminator (`for (i = 0; i <= strlen; i++)`), then the three booleans
as one byte each. -/
def serializePayload (c : Config) : List Nat :=
  c.passw ++ 0 :: (c.tel_no ++ 0 ::
    (c.sms_on_fall.getD 0 [] ++ 0 :: (c.sms_on_fall.getD 1 [] ++ 0 :: (c.sms_on_fall.getD 2 [] ++ 0 ::
      (c.sms_on_rise.getD 0 [] ++ 0 :: (c.sms_on_rise.getD 1 [] ++ 0 :: (c.sms_on_rise.getD 2 [] ++ 0 ::
        c.send_sms_on_change.map boolByte)))))))

/-- Writing the configuration into the (old) 1024-byte record buffer
(lines 1013-1038): the payload overwrites bytes 1.., the tail keeps the
previous contents, then byte 0 is set to the checksum of bytes 1..1023
of the updated buffer. -/
def saveFlash (c : Config) (old : List Nat) : List Nat :=
  let mid := old.take 1 ++ serializePayload c ++ old.drop (1 + (serializePayload c).length)
  mid.set 0 (checksum mid)

/-- Reading one NUL-terminated field out of the record
(`do { x[i++] = flash_settings[++l]; } while (flash_settings[l]);`):
returns the content before the first NUL and the remaining bytes after
that NUL. -/
def parseCStr : List Nat → List Nat × List Nat
  | [] => ([], [])
  | c :: rest =>
    if c = 0 then ([], rest)
    else
      let p := parseCStr rest
      (c :: p.1, p.2)

/-- Deserialising the fields from the payload (record bytes 1..), in
declared order (lines 373-395): password, telephone number, three
fall messages, three rise messages, three booleans (a stored byte is
the C `bool` of a `char`: true iff nonzero). -/
def deserializePayload (p : List Nat) : Config :=
  let s1 := parseCStr p
  let s2 := parseCStr s1.2
  let f0 := parseCStr s2.2
  let f1 := parseCStr f0.2
  let f2 := parseCStr f1.2
  let r0 := parseCStr f2.2
  let r1 := parseCStr r0.2
  let r2 := parseCStr r1.2
  { passw := s1.1
    tel_no := s2.1
    sms_on_fall := [f0.1, f1.1, f2.1]
    sms_on_rise := [r0.1, r1.1, r2.1]
    send_sms_on_change :=
      [decide (r2.2.getD 0 0 ≠ 0), decide (r2.2.getD 1 0 ≠ 0), decide (r2.2.getD 2 0 ≠ 0)] }

/-- Deserialising a full record: the fields start at byte 1. -/
def deserializeFlash (f : List Nat) : Config := deserializePayload (f.drop 1)

/-- Boot-time restore (lines 349-368): the record is accepted iff its
byte 0 equals the checksum of bytes 1..1023; on acceptance the fields
are applied, otherwise the defaults are applied and a rewrite is
scheduled (`store_new_flash_settings = true`).  Returns the runtime
configuration and the `store_new_flash_settings` flag. -/
def bootLoad (f : List Nat) : Config × Bool :=
  if f.getD 0 0 = checksum f then (deserializeFlash f, false)
  else (defaultConfig, true)

/-! ## Message classifier (AlarmDial.c lines 468-533)

Incoming modem lines (already CR/LF-stripped and capped at
`max_str_l - 1 = 199` characters by the ring-buffer drain, lines
453-466) are classified by literal prefix match, in source order.
Numerical kinds follow the `#define`s at lines 61-73: OK 0, ERROR 1,
CPSI 2, CREG 3, CPMS 4, CSQ 5, CMGD 6, CMGS 7, CMTI 8, CMGR 9,
CLCC 10, UNKNOWN 11.  We use 12 for a discarded line (leading `>`;
the `str[0] == '\0'` case cannot occur since classification only runs
on a nonempty line) and 13 for a free-form payload line. -/

def lineKind (s : List Nat) : Nat :=
  if strncmpEq s (strB "OK") 2 then 0
  else if strncmpEq s (strB "ERROR") 5 then 1
  else if strncmpEq s (strB "+CPSI") 5 then 2
  else if strncmpEq s (strB "+CREG") 5 then 3
  else if strncmpEq s (strB "+CPMS") 5 then 4
  else if strncmpEq s (strB "+CSQ") 4 then 5
  else if strncmpEq s (strB "+CMGD") 5 then 6
  else if strncmpEq s (strB "+CMGS") 5 then 7
  else if strncmpEq s (strB "+CMTI") 5 then 8
  else if strncmpEq s (strB "+CMGR") 5 then 9
  else if strncmpEq s (strB "+CLCC") 5 then 10
  else if s.getD 0 0 = 62 then 12
  else if s.getD 0 0 = 43 then 11
  else 13

/-! ## SMS command parser (AlarmDial.c lines 658-833)

The parser runs inside the CMGR handler on the received SMS body.  It
may mutate the configuration, set the config-dirty flag
(`store_new_flash_settings`), select a multi-stage action
(`multi_stage_handling_type`) and stage a reply in
`multi_stage_message`.  The multi-stage action tags follow the
`#define`s at lines 91-100 (SIGNAL_REQUEST 1, TEL_NO 2, PW 3,
PIN_ACTION 4, MSG 5, SEND_SIGNAL_LEVEL 6, SEND_STATUS_MSG 7,
DEFAULTS 8, INVALID_COMMAND 9; 0 is idle). -/

/-- The slice of state the SMS parser reads and writes. -/
structure PState where
  cfg : Config
  store_new_flash_settings : Bool
  multi_stage_handling_type : Nat
  multi_stage_message : List (List Nat)
  deriving Repr, DecidableEq

/-- `" Signal?"` -/
def vSignal : List Nat := strB " Signal?"
/-- `" TelephoneNumber!"` -/
def vTel : List Nat := strB " TelephoneNumber!"
/-- `" Password!"` -/
def vPw : List Nat := strB " Password!"
/-- `" SMSonInput!"` -/
def vSMSon : List Nat := strB " SMSonInput!"
/-- `" MessageText!"` -/
def vMsgTxt : List Nat := strB " MessageText!"
/-- `" Defaults!"` -/
def vDefaults : List Nat := strB " Defaults!"

/-- Each command check compares the body against `passw ++ verb` over
`j = sizeof(passw) + sizeof(verb) - 2 = 6 + verb.length` characters,
where `passw` is the *current* password at that point of the parse
(the prefix string is rebuilt by `sprintf` before every check). -/
def cmdMatch (body passw verb : List Nat) : Prop :=
  strncmpEq body (passw ++ verb) (6 + verb.length)

instance instDecCmdMatch (body passw verb : List Nat) : Decidable (cmdMatch body passw verb) := by
  unfold cmdMatch; infer_instance

/-- `Signal?` (lines 662-670): select the SIGNAL_REQUEST multi-stage
action. -/
def brSignal (body : List Nat) (a : PState × Bool) : PState × Bool :=
  if cmdMatch body a.1.cfg.passw vSignal then
    ({ a.1 with multi_stage_handling_type := 1 }, false)
  else a

/-- `TelephoneNumber!` (lines 672-700): copy up to 49 characters into
`tel_no` (the country-format check is commented out in the source, so
the number is always applied), mark the configuration dirty, stage the
confirmation. -/
def brTel (body : List Nat) (a : PState × Bool) : PState × Bool :=
  if cmdMatch body a.1.cfg.passw vTel then
    ({ a.1 with
        cfg := { a.1.cfg with tel_no := (body.drop (6 + vTel.length)).take 49 }
        store_new_flash_settings := true
        multi_stage_handling_type := 2
        multi_stage_message := a.1.multi_stage_message.set 2 (strB "Ok. Changed telephone number") }, false)
  else a

/-- `Password!` (lines 702-728): the argument must be exactly six
characters; on success the password is replaced and the configuration
marked dirty, otherwise an error reply is staged. -/
def brPw (body : List Nat) (a : PState × Bool) : PState × Bool :=
  if cmdMatch body a.1.cfg.passw vPw then
    let arg := body.drop (6 + vPw.length)
    if arg.length = 6 then
      ({ a.1 with
          cfg := { a.1.cfg with passw := arg }
          store_new_flash_settings := true
          multi_stage_handling_type := 3
          multi_stage_message := a.1.multi_stage_message.set 3 (strB "Ok. Changed password") }, false)
    else
      ({ a.1 with
          multi_stage_handling_type := 3
          multi_stage_message := a.1.multi_stage_message.set 3
            (strB "Error. Invalid password (needs to be 6 characters)") }, false)
  else a

/-- `SMSonInput!` (lines 730-756): `i = received_sms_text[j] - '1'` must
be in `[0, 3)` and the next character must be the NUL terminator; then
the pin's notify flag is toggled.  (When the argument is empty the C
read of `received_sms_text[j+1]` is one past the terminator; its value
cannot matter because `i < 0` already fails the conjunction.) -/
def brPin (body : List Nat) (a : PState × Bool) : PState × Bool :=
  if cmdMatch body a.1.cfg.passw vSMSon then
    let i : Int := (cAt body 18 : Int) - 49
    if 0 ≤ i ∧ i < 3 ∧ cAt body 19 = 0 then
      let k := i.toNat
      let nv := !(a.1.cfg.send_sms_on_change.getD k false)
      ({ a.1 with
          cfg := { a.1.cfg with send_sms_on_change := a.1.cfg.send_sms_on_change.set k nv }
          store_new_flash_settings := true
          multi_stage_handling_type := 4
          multi_stage_message := a.1.multi_stage_message.set 4
            (strB "Ok. Input " ++ [49 + k] ++ strB " will " ++
              (if nv then [] else strB "not ") ++ strB "trigger SMS from now on") }, false)
    else
      ({ a.1 with
          multi_stage_handling_type := 4
          multi_stage_message := a.1.multi_stage_message.set 4
            (strB "Error. Invalid input number (must be 1-3)") }, false)
  else a

/-- `MessageText!` (lines 758-799): `k = received_sms_text[j] - '1'`
indexes the pin, `l` selects `On!` (1) or `Off!` (2) and is reset to 0
unless `received_sms_text[j+1] == '!'`; the new text is truncated to 49
characters.  (C reads past the terminator here only in cases where the
`k ≥ 0` or `l ≠ 0` conjunct already fails, so the 0-default read is
observationally faithful.) -/
def brMsg (body : List Nat) (a : PState × Bool) : PState × Bool :=
  if cmdMatch body a.1.cfg.passw vMsgTxt then
    let k : Int := (cAt body 19 : Int) - 49
    let l0 : Nat :=
      if strncmpEq (body.drop 21) (strB "On!") 3 then 1
      else if strncmpEq (body.drop 21) (strB "Off!") 4 then 2
      else 0
    let l : Nat := if cAt body 20 ≠ 33 then 0 else l0
    if 0 ≤ k ∧ k < 3 ∧ l ≠ 0 then
      let i := k.toNat
      if l = 1 then
        let txt := (body.drop 24).take 49
        ({ a.1 with
            cfg := { a.1.cfg with sms_on_fall := a.1.cfg.sms_on_fall.set i txt }
            store_new_flash_settings := true
            multi_stage_handling_type := 5
            multi_stage_message := a.1.multi_stage_message.set 5
              (strB "Ok. New message for input " ++ [49 + i] ++ strB " activating: \"" ++ txt ++ strB "\"") }, false)
      else
        let txt := (body.drop 25).take 49
        ({ a.1 with
            cfg := { a.1.cfg with sms_on_rise := a.1.cfg.sms_on_rise.set i txt }
            store_new_flash_settings := true
            multi_stage_handling_type := 5
            multi_stage_message := a.1.multi_stage_message.set 5
              (strB "Ok. New message for input " ++ [49 + i] ++ strB " deactivating: \"" ++ txt ++ strB "\"") }, false)
    else
      ({ a.1 with
          multi_stage_handling_type := 5
          multi_stage_message := a.1.multi_stage_message.set 5
            (strB "Error. Invalid message change request") }, false)
  else a

/-- `Defaults!` (lines 801-823): reset the whole configuration to the
defaults. -/
def brDefaults (body : List Nat) (a : PState × Bool) : PState × Bool :=
  if cmdMatch body a.1.cfg.passw vDefaults then
    ({ a.1 with
        cfg := defaultConfig
        store_new_flash_settings := true
        multi_stage_handling_type := 8
        multi_stage_message := a.1.multi_stage_message.set 8
          (strB "Ok. Resetting settings to defaults") }, false)
  else a

/-- Correct password but no recognised instruction (lines 826-833). -/
def brFinal (a : PState × Bool) : PState :=
  if a.2 then
    { a.1 with
        multi_stage_handling_type := 9
        multi_stage_message := a.1.multi_stage_message.set 9 (strB "Invalid instruction") }
  else a.1

/-- The whole SMS command parse (lines 658-833).
`recognised_instruction` starts as the `strncmp` of the body against
the current password over `sizeof(passw) - 1 = 6` characters and is
cleared by every matched command branch. -/
def smsParse (st : PState) (body : List Nat) : PState :=
  brFinal (brDefaults body (brMsg body (brPin body (brPw body (brTel body (brSignal body
    (st, decide (strncmpEq body st.cfg.passw 6))))))))

/-! ## Control-loop state (AlarmDial.c lines 244-443)

The state of the main loop: per-kind `received` flags and stored
response lines (12 kinds), the received SMS body and its flag, the
per-kind `awaiting_response` flags and `initiate_time` stamps, the
multi-stage action slot with its staged messages, the runtime
configuration and its dirty flag, the last observed pin levels, the
cadence timestamps, the flash record, and a flag recording that the
watchdog-reboot path was taken (after which no further iteration
runs). -/

structure LoopState where
  received : List Bool
  received_response : List (List Nat)
  received_sms_text : List Nat
  received_sms : Bool
  awaiting_response : List Bool
  initiate_time : List Int
  multi_stage_handling_type : Nat
  multi_stage_message : List (List Nat)
  cfg : Config
  store_new_flash_settings : Bool
  last_status : List Bool
  last_status_check_time : Int
  last_creg_check_time : Int
  last_cpsi_check_time : Int
  last_cmgd_time : Int
  last_passw_reset_time : Int
  last_passw_reset_check_time : Int
  flash_settings : List Nat
  rebooted : Bool
  deriving Repr, DecidableEq

/-- The environment of one loop iteration: the wall clock
(`current_time`, microseconds), at most one complete CR/LF-stripped
line drained from the ring buffer (`none` when no LF is buffered), the
raw `gpio_get` levels of the three alarm-input pins, and the raw level
of the password-reset pin. -/
structure Input where
  now : Int
  line : Option (List Nat)
  pinLevels : List Bool
  pwResetLevel : Bool
  deriving Repr, DecidableEq

/-- Loop-entry state (lines 417-432): all flags cleared, all timestamps
set to the boot time, the configuration and dirty flag as produced by
the boot-time restore for the given record. -/
def initLoopState (c : Config) (dirty : Bool) (f : List Nat) (t0 : Int) : LoopState where
  received := List.replicate 12 false
  received_response := List.replicate 12 []
  received_sms_text := []
  received_sms := false
  awaiting_response := List.replicate 12 false
  initiate_time := List.replicate 12 t0
  multi_stage_handling_type := 0
  multi_stage_message := List.replicate 10 []
  cfg := c
  store_new_flash_settings := dirty
  last_status := [false, false, false]
  last_status_check_time := t0
  last_creg_check_time := t0
  last_cpsi_check_time := t0
  last_cmgd_time := t0
  last_passw_reset_time := t0
  last_passw_reset_check_time := t0
  flash_settings := f
  rebooted := false

/-- Booting from a flash record: restore or default the configuration
(lines 349-406), then enter the loop. -/
def bootState (f : List Nat) (t0 : Int) : LoopState :=
  initLoopState (bootLoad f).1 (bootLoad f).2 f t0

/-- A bare post-boot state (defaults applied, nothing pending), used as
the base of the concrete states at which theorems are exercised. -/
def baseState : LoopState := initLoopState defaultConfig false (List.replicate 1024 0) 0

/-! ## The blocks of one loop iteration, in source order. -/

/-- Reading and classifying one line (lines 453-533): the drained line
is capped at 199 characters; an empty line sets no flag.  `OK` and
`ERROR` only set their flag; the `+XXX` kinds and `UNKNOWN` also store
the line; a free-form line is kept as SMS body only while a CMGR
read-out is awaited. -/
def classifyBlock (s : LoopState) (inp : Input) : LoopState :=
  match inp.line with
  | none => s
  | some raw =>
    let str := raw.take 199
    if str.length > 0 then
      let k := lineKind str
      if k = 0 ∨ k = 1 then
        { s with received := s.received.set k true }
      else if k ≤ 11 then
        { s with received := s.received.set k true
                 received_response := s.received_response.set k str }
      else if k = 13 then
        if s.awaiting_response.getD 9 false then
          { s with received_sms := true, received_sms_text := str }
        else s
      else s
    else s

/-- Recomputing the aggregate busy flag (lines 538-540):
`awaiting_response[UNKNOWN]` becomes the disjunction of the other
eleven `awaiting_response` entries. -/
def recomputeUnknown (s : LoopState) : LoopState :=
  { s with awaiting_response :=
      s.awaiting_response.set 11 ((List.range 11).any (fun i => s.awaiting_response.getD i false)) }

/-- Periodic modem status probe issue (lines 543-552),
`CPSI_CHECK_INTERVAL_US = 2419200000000`. -/
def cpsiIssue (s : LoopState) (inp : Input) : LoopState :=
  if inp.now - s.last_cpsi_check_time > 2419200000000 ∧ s.awaiting_response.getD 11 false = false then
    { s with initiate_time := s.initiate_time.set 2 inp.now
             awaiting_response := (s.awaiting_response.set 2 true).set 11 true
             last_cpsi_check_time := inp.now }
  else s

/-- CPSI response handling (lines 553-586): when the response contains
`"Online"` the STATUS multi-stage action is selected and the final OK
awaited; otherwise the watchdog is re-armed to 1 ms and the firmware
spins until reboot. -/
def cpsiBlock (s : LoopState) (inp : Input) : LoopState :=
  if s.received.getD 2 false = true ∧ s.awaiting_response.getD 2 false = true then
    let s1 := { s with received := s.received.set 2 false
                       awaiting_response := s.awaiting_response.set 2 false }
    if hasSub (s.received_response.getD 2 []) (strB "Online") then
      { s1 with
          multi_stage_message :=
            s1.multi_stage_message.set 7 (strB "Modem check: " ++ (s.received_response.getD 2 []).drop 7),
          multi_stage_handling_type := 7,
          initiate_time := s1.initiate_time.set 0 inp.now,
          awaiting_response := (s1.awaiting_response.set 0 true).set 11 true }
    else
      { s1 with rebooted := true }
  else if s.received.getD 2 false = true then
    { s with received := s.received.set 2 false }
  else s

/-- Periodic network registration probe issue (lines 589-598),
`CREG_CHECK_INTERVAL_US = 28800000000`. -/
def cregIssue (s : LoopState) (inp : Input) : LoopState :=
  if inp.now - s.last_creg_check_time > 28800000000 ∧ s.awaiting_response.getD 11 false = false then
    { s with initiate_time := s.initiate_time.set 3 inp.now
             awaiting_response := (s.awaiting_response.set 3 true).set 11 true
             last_creg_check_time := inp.now }
  else s

/-- CREG response handling (lines 599-614): the reply is drained and the
trailing OK awaited. -/
def cregBlock (s : LoopState) (inp : Input) : LoopState :=
  if s.received.getD 3 false = true ∧ s.awaiting_response.getD 3 false = true then
    { s with received := s.received.set 3 false
             awaiting_response := ((s.awaiting_response.set 3 false).set 0 true).set 11 true
             initiate_time := s.initiate_time.set 0 inp.now }
  else if s.received.getD 3 false = true then
    { s with received := s.received.set 3 false }
  else s

/-- CMTI handling (lines 617-628): an incoming-SMS indication triggers
the `AT+CMGR` read-out, awaiting the CMGR echo. -/
def cmtiBlock (s : LoopState) (inp : Input) : LoopState :=
  if s.received.getD 8 false = true ∧ s.awaiting_response.getD 11 false = false then
    { s with received := s.received.set 8 false
             initiate_time := s.initiate_time.set 9 inp.now
             awaiting_response := (s.awaiting_response.set 9 true).set 11 true }
  else s

/-- CLCC handling (lines 631-644): an incoming voice call is hung up
with `AT+CHUP`, awaiting its OK. -/
def clccBlock (s : LoopState) (inp : Input) : LoopState :=
  if s.received.getD 10 false = true ∧ s.awaiting_response.getD 11 false = false then
    { s with received := s.received.set 10 false
             initiate_time := s.initiate_time.set 0 inp.now
             awaiting_response := (s.awaiting_response.set 0 true).set 11 true }
  else s

/-- CMGR handling (lines 647-845): once both the `+CMGR` header and the
free-form SMS body have arrived, the flags are cleared, the OK that
terminates the read-out is awaited (stamped now), and the body is
parsed.  The two `else if` arms discard an unexpected CMGR header or
an unexpected body. -/
def cmgrBlock (s : LoopState) (inp : Input) : LoopState :=
  if s.received.getD 9 false = true ∧ s.awaiting_response.getD 9 false = true ∧ s.received_sms = true then
    let s1 := { s with received := s.received.set 9 false
                       awaiting_response := ((s.awaiting_response.set 9 false).set 0 true).set 11 true
                       received_sms := false
                       initiate_time := s.initiate_time.set 0 inp.now }
    let p := smsParse
      ⟨s1.cfg, s1.store_new_flash_settings, s1.multi_stage_handling_type, s1.multi_stage_message⟩
      s1.received_sms_text
    { s1 with cfg := p.cfg
              store_new_flash_settings := p.store_new_flash_settings
              multi_stage_handling_type := p.multi_stage_handling_type
              multi_stage_message := p.multi_stage_message }
  else if s.received.getD 9 false = true ∧ s.awaiting_response.getD 9 false = false then
    { s with received := s.received.set 9 false, received_sms := false }
  else if s.awaiting_response.getD 9 false = false ∧ s.received_sms = true then
    { s with received_sms := false }
  else s

/-- CSQ handling (lines 848-870): extract the signal value (the
characters from offset 6 up to the first comma, bounded by
`strlen - 1`), stage the reply, select the SEND_SIGNAL_LEVEL action and
await the OK. -/
def csqBlock (s : LoopState) (inp : Input) : LoopState :=
  if s.received.getD 5 false = true ∧ s.awaiting_response.getD 5 false = true then
    let resp := s.received_response.getD 5 []
    let val := (((resp.drop 6).takeWhile (fun c => c ≠ 44)).take (resp.length - 1))
    { s with received := s.received.set 5 false
             awaiting_response := ((s.awaiting_response.set 5 false).set 0 true).set 11 true
             initiate_time := s.initiate_time.set 0 inp.now
             multi_stage_message := s.multi_stage_message.set 6 (strB "Signal quality is " ++ val)
             multi_stage_handling_type := 6 }
  else if s.received.getD 5 false = true then
    { s with received := s.received.set 5 false }
  else s

/-- Periodic stored-SMS deletion issue (lines 873-882),
`CMGD_INTERVAL_US = 86400000000`; awaits the OK of `AT+CMGD=0,4`. -/
def cmgdIssue (s : LoopState) (inp : Input) : LoopState :=
  if inp.now - s.last_cmgd_time > 86400000000 ∧ s.awaiting_response.getD 11 false = false then
    { s with initiate_time := s.initiate_time.set 0 inp.now
             awaiting_response := (s.awaiting_response.set 0 true).set 11 true
             last_cmgd_time := inp.now }
  else s

/-- CMGS handling (lines 885-900): an SMS-send echo completes by
awaiting the final OK. -/
def cmgsBlock (s : LoopState) (inp : Input) : LoopState :=
  if s.received.getD 7 false = true ∧ s.awaiting_response.getD 7 false = true then
    { s with received := s.received.set 7 false
             awaiting_response := ((s.awaiting_response.set 7 false).set 0 true).set 11 true
             initiate_time := s.initiate_time.set 0 inp.now }
  else if s.received.getD 7 false = true then
    { s with received := s.received.set 7 false }
  else s

/-- OK handling with the multi-stage dispatch (lines 904-935): on an
awaited OK, a pending SIGNAL_REQUEST issues `AT+CSQ` (awaiting CSQ),
any other pending action sends its staged SMS (awaiting CMGS); in both
cases the slot returns to idle. -/
def okBlock (s : LoopState) (inp : Input) : LoopState :=
  if s.received.getD 0 false = true ∧ s.awaiting_response.getD 0 false = true then
    let s1 := { s with received := s.received.set 0 false
                       awaiting_response := s.awaiting_response.set 0 false }
    if s1.multi_stage_handling_type = 1 then
      { s1 with initiate_time := s1.initiate_time.set 5 inp.now
                awaiting_response := (s1.awaiting_response.set 5 true).set 11 true
                multi_stage_handling_type := 0 }
    else if s1.multi_stage_handling_type ≠ 0 then
      { s1 with initiate_time := s1.initiate_time.set 7 inp.now
                awaiting_response := (s1.awaiting_response.set 7 true).set 11 true
                multi_stage_handling_type := 0 }
    else s1
  else if s.received.getD 0 false = true then
    { s with received := s.received.set 0 false }
  else s

/-- Unknown-modem-message handling (lines 938-949): the flag is merely
cleared (the SMS forward is commented out in the source). -/
def unknownBlock (s : LoopState) : LoopState :=
  if s.received.getD 11 false = true ∧ s.awaiting_response.getD 11 false = false then
    { s with received := s.received.set 11 false }
  else s

/-- The per-kind timeout deadline (line 953): 60 s for OK, 9 s for every
other kind. -/
def deadline (i : Nat) : Int := if i = 0 then 60000000 else 9000000

/-- One step of the timeout loop (lines 952-961) for kind `i`: if the
response is awaited and the deadline has passed, the awaited flag is
cleared, and for CMGR the multi-stage slot is also reset. -/
def timeoutOne (now : Int) (s : LoopState) (i : Nat) : LoopState :=
  if now - s.initiate_time.getD i 0 > deadline i ∧ s.awaiting_response.getD i false = true then
    let s1 := { s with awaiting_response := s.awaiting_response.set i false }
    if i = 9 then { s1 with multi_stage_handling_type := 0 } else s1
  else s

/-- The timeout loop runs over `i = 0 .. MAX_MSG - 2 = 10`. -/
def timeoutBlock (s : LoopState) (inp : Input) : LoopState :=
  (List.range 11).foldl (timeoutOne inp.now) s

/-- The input scan (lines 964-981), gated on a 1 s cadence and on the
dialogue being idle: for each pin, `status = !gpio_get(pin)` (negative
logic); on a change the captured level is flipped and, when
notification is enabled for the pin, the corresponding message is sent
by SMS (awaiting CMGS).  Returns the new state and the list of SMS
bodies handed to `send_sms` during the scan, in pin order. -/
def scanPin (inp : Input) (a : LoopState × List (List Nat)) (i : Nat) : LoopState × List (List Nat) :=
  let s := a.1
  let status := !(inp.pinLevels.getD i true)
  if status ≠ s.last_status.getD i false then
    let s1 := { s with last_status := s.last_status.set i (!(s.last_status.getD i false)) }
    if s1.cfg.send_sms_on_change.getD i false then
      ({ s1 with initiate_time := s1.initiate_time.set 7 inp.now
                 awaiting_response := (s1.awaiting_response.set 7 true).set 11 true },
       a.2 ++ [if status then s1.cfg.sms_on_fall.getD i [] else s1.cfg.sms_on_rise.getD i []])
    else (s1, a.2)
  else a

def scanBlock (s : LoopState) (inp : Input) : LoopState × List (List Nat) :=
  if inp.now - s.last_status_check_time > 1000000 ∧ s.awaiting_response.getD 11 false = false then
    [0, 1, 2].foldl (scanPin inp) ({ s with last_status_check_time := inp.now }, [])
  else (s, [])

/-- The password-reset pin check (lines 984-999): 1 s check cadence,
10 s cool-down; a low level resets the password to the default, marks
the configuration dirty and sends a notification SMS (awaiting
CMGS). -/
def pwResetBlock (s : LoopState) (inp : Input) : LoopState :=
  if inp.now - s.last_passw_reset_check_time > 1000000 ∧
     inp.now - s.last_passw_reset_time > 10000000 ∧
     s.awaiting_response.getD 11 false = false then
    let s1 := { s with last_passw_reset_check_time := inp.now }
    if !inp.pwResetLevel then
      { s1 with last_passw_reset_time := inp.now
                cfg := { s1.cfg with passw := defaultConfig.passw }
                store_new_flash_settings := true
                initiate_time := s1.initiate_time.set 7 inp.now
                awaiting_response := (s1.awaiting_response.set 7 true).set 11 true }
    else s1
  else s

/-- The flash save (lines 1013-1049): when the configuration is dirty
and the dialogue idle, the record is rewritten and the dirty flag
cleared. -/
def saveBlock (s : LoopState) : LoopState :=
  if s.store_new_flash_settings = true ∧ s.awaiting_response.getD 11 false = false then
    { s with flash_settings := saveFlash s.cfg s.flash_settings
             store_new_flash_settings := false }
  else s

/-- One iteration of the main loop (lines 446-1050), composing the
blocks in source order.  After the deliberate watchdog reboot
(`rebooted`) no further iteration runs. -/
def loopStep (s : LoopState) (inp : Input) : LoopState :=
  if s.rebooted then s
  else
    let s1 := classifyBlock s inp
    let s2 := recomputeUnknown s1
    let s3 := cpsiIssue s2 inp
    let s4 := cpsiBlock s3 inp
    let s5 := cregIssue s4 inp
    let s6 := cregBlock s5 inp
    let s7 := cmtiBlock s6 inp
    let s8 := clccBlock s7 inp
    let s9 := cmgrBlock s8 inp
    let s10 := csqBlock s9 inp
    let s11 := cmgdIssue s10 inp
    let s12 := cmgsBlock s11 inp
    let s13 := okBlock s12 inp
    let s14 := unknownBlock s13
    let s15 := timeoutBlock s14 inp
    let s16 := (scanBlock s15 inp).1
    let s17 := pwResetBlock s16 inp
    saveBlock s17

/-- The reachable states of the control loop: any boot from a 1024-byte
flash record, closed under loop iterations with arbitrary inputs. -/
inductive Reach : LoopState → Prop
  | boot (f : List Nat) (t0 : Int) (hf : f.length = 1024) : Reach (bootState f t0)
  | step (s : LoopState) (inp : Input) (h : Reach s) : Reach (loopStep s inp)

/-! ## Concrete executions used by the theorems

A five-iteration run from a blank (all-ones, checksum-invalid) flash
record: a `+CMTI` announces an SMS, the `+CMGR` header and the SMS body
`"674358 Password!abc"` arrive (selecting the PW multi-stage action and
awaiting the final OK), no OK ever arrives, and the 60-second OK
timeout fires; a final quiet iteration recomputes the aggregate flag. -/

def cexFlash : List Nat := List.replicate 1024 1

def cmtiInput : Input := ⟨2000000, some (strB "+CMTI: \"ME\",1"), [true, true, true], true⟩

def cmgrInput : Input :=
  ⟨3000000, some (strB "+CMGR: \"REC UNREAD\",\"+441234567890\",\"\",\"24/05/01\""),
    [true, true, true], true⟩

def smsInput : Input := ⟨4000000, some (strB "674358 Password!abc"), [true, true, true], true⟩

def idle4Input : Input := ⟨64000001, none, [true, true, true], true⟩

def idle5Input : Input := ⟨65000001, none, [true, true, true], true⟩

def pendingNotBusyState : LoopState :=
  loopStep (loopStep (loopStep (loopStep (loopStep (bootState cexFlash 0) cmtiInput)
    cmgrInput) smsInput) idle4Input) idle5Input

/-- An input for the scan block: one second has passed and the first two
pins read electrically low (activated under negative logic). -/
def scanCexInput : Input := ⟨2000000, none, [false, false, true], true⟩

/-- A state in which an OK, a CPSI, a CSQ and a CMGR response are all
received and awaited at once, a CPSI response containing `"Online"` is
stored, an SMS body is pending, and multi-stage action 3 is pending. -/
def busyTestState : LoopState :=
  { baseState with
      received := ((((List.replicate 12 false).set 0 true).set 2 true).set 5 true).set 9 true
      awaiting_response := ((((List.replicate 12 false).set 0 true).set 2 true).set 5 true).set 9 true
      received_sms := true
      received_sms_text := strB "674358 Signal?"
      received_response := (List.replicate 12 []).set 2 (strB "+CPSI: Online")
      multi_stage_handling_type := 3 }

def busyTestInput : Input := ⟨5000000, none, [true, true, true], true⟩

/-! ## Helper lemmas -/

theorem getD_set_self {α : Type} (l : List α) (i : Nat) (v d : α) (h : i < l.length) :
    (l.set i v).getD i d = v := by
  simp [List.getD, List.getElem?_set_self, h]

theorem getD_set_other {α : Type} (l : List α) {i j : Nat} (v d : α) (h : i ≠ j) :
    (l.set i v).getD j d = l.getD j d := by
  simp [List.getD, List.getElem?_set_ne h]

theorem drop_one_set_zero {α : Type} (l : List α) (v : α) : (l.set 0 v).drop 1 = l.drop 1 := by
  cases l <;> simp

theorem checksum_set_zero (l : List Nat) (v : Nat) : checksum (l.set 0 v) = checksum l := by
  unfold checksum
  rw [drop_one_set_zero]

theorem parseCStr_append (s t : List Nat) (h : 0 ∉ s) : parseCStr (s ++ 0 :: t) = (s, t) := by
  induction s with
  | nil => simp [parseCStr]
  | cons c rest ih =>
    have hc : c ≠ 0 := fun hc => h (hc ▸ List.mem_cons_self c rest)
    have hr : 0 ∉ rest := fun hm => h (List.mem_cons_of_mem c hm)
    simp [parseCStr, hc, ih hr]

/-! ## C1: boot-time checksum policy -/

/-- The length of a valid configuration's serialised payload: 7 bytes of
password buffer, at most 50 each for the telephone number and the six
messages, 3 boolean bytes — at most 360 bytes, well inside the
record. -/
theorem serializePayload_length_le (c : Config) (hc : ValidConfig c) :
    (serializePayload c).length ≤ 360 := by
  obtain ⟨hpw6, _, htl, _, hf3, hfm, hr3, hrm, hs3⟩ := hc
  obtain ⟨f0, f1, f2, hfe⟩ := List.length_eq_three.mp hf3
  obtain ⟨r0, r1, r2, hre⟩ := List.length_eq_three.mp hr3
  have hb0 : (c.sms_on_fall.getD 0 []).length ≤ 49 := by
    rw [hfe]; exact (hfm f0 (by rw [hfe]; simp)).1
  have hb1 : (c.sms_on_fall.getD 1 []).length ≤ 49 := by
    rw [hfe]; exact (hfm f1 (by rw [hfe]; simp)).1
  have hb2 : (c.sms_on_fall.getD 2 []).length ≤ 49 := by
    rw [hfe]; exact (hfm f2 (by rw [hfe]; simp)).1
  have hc0 : (c.sms_on_rise.getD 0 []).length ≤ 49 := by
    rw [hre]; exact (hrm r0 (by rw [hre]; simp)).1
  have hc1 : (c.sms_on_rise.getD 1 []).length ≤ 49 := by
    rw [hre]; exact (hrm r1 (by rw [hre]; simp)).1
  have hc2 : (c.sms_on_rise.getD 2 []).length ≤ 49 := by
    rw [hre]; exact (hrm r2 (by rw [hre]; simp)).1
  simp only [serializePayload, List.length_append, List.length_cons, List.length_map]
  omega

/-- C1: On boot the persisted record is accepted (no default rewrite
scheduled) if and only if its byte 0 equals the 8-bit sum mod 256 of
bytes 1..1023; on mismatch the runtime configuration is the default
tuple with the rewrite scheduled; and every record the firmware writes
(the save path is the only write) is a 1024-byte record whose byte 0
equals the mod-256 sum of bytes 1..1023. -/
theorem boot_checksum_policy (f old : List Nat) (c : Config)
    (hf : f.length = 1024) (hold : old.length = 1024) (hc : ValidConfig c) :
    ((bootLoad f).2 = false ↔ f.getD 0 0 = checksum f)
    ∧ (f.getD 0 0 ≠ checksum f → bootLoad f = (defaultConfig, true))
    ∧ (saveFlash c old).getD 0 0 = checksum (saveFlash c old)
    ∧ (saveFlash c old).length = 1024 := by
  have hmidlen : (old.take 1 ++ serializePayload c ++
      old.drop (1 + (serializePayload c).length)).length = 1024 := by
    have hp := serializePayload_length_le c hc
    simp only [List.length_append, List.length_take, List.length_drop, hold]
    omega
  refine ⟨?_, ?_, ?_, ?_⟩
  · unfold bootLoad
    by_cases h : f.getD 0 0 = checksum f
    · rw [if_pos h]
      exact ⟨fun _ => h, fun _ => rfl⟩
    · rw [if_neg h]
      exact ⟨fun hh => absurd hh (by simp), fun hh => absurd hh h⟩
  · intro h
    unfold bootLoad
    rw [if_neg h]
  · unfold saveFlash
    rw [checksum_set_zero]
    exact getD_set_self _ 0 _ 0 (by omega)
  · unfold saveFlash
    simpa using hmidlen

/-- Witness for `boot_checksum_policy`: the all-ones record (checksum 255
at byte 0 required, 1 stored) is rejected, and saving the default
configuration over an all-zero record yields a valid record. -/
theorem boot_checksum_policy_witness :
    ((bootLoad (List.replicate 1024 1)).2 = false ↔
      (List.replicate 1024 1 : List Nat).getD 0 0 = checksum (List.replicate 1024 1))
    ∧ ((List.replicate 1024 1 : List Nat).getD 0 0 ≠ checksum (List.replicate 1024 1) →
        bootLoad (List.replicate 1024 1) = (defaultConfig, true))
    ∧ (saveFlash defaultConfig (List.replicate 1024 0)).getD 0 0 =
        checksum (saveFlash defaultConfig (List.replicate 1024 0))
    ∧ (saveFlash defaultConfig (List.replicate 1024 0)).length = 1024 :=
  boot_checksum_policy (List.replicate 1024 1) (List.replicate 1024 0) defaultConfig
    (by simp) (by simp) (by decide)

/-! ## C2: serialise/deserialise round trip -/

/-- C2: serialising any configuration in the valid domain into the
1024-byte flash record and deserialising the record in declared field
order yields exactly the same configuration. -/
theorem serialize_roundtrip (c : Config) (old : List Nat)
    (hc : ValidConfig c) (hold : old.length = 1024) :
    deserializeFlash (saveFlash c old) = c := by
  obtain ⟨hpw6, hpw0, htl, htl0, hf3, hfm, hr3, hrm, hs3⟩ := hc
  rcases old with _ | ⟨o0, otail⟩
  · simp at hold
  have hdrop : (saveFlash c (o0 :: otail)).drop 1 =
      serializePayload c ++ otail.drop ((serializePayload c).length) := by
    unfold saveFlash
    rw [drop_one_set_zero]
    simp [Nat.add_comm]
  unfold deserializeFlash
  rw [hdrop]
  rcases c with ⟨pw, tel, fall, rise, ssoc⟩
  simp only at hpw0 htl0 hfm hrm hf3 hr3 hs3
  obtain ⟨f0, f1, f2, rfl⟩ := List.length_eq_three.mp hf3
  obtain ⟨r0, r1, r2, rfl⟩ := List.length_eq_three.mp hr3
  obtain ⟨x, y, z, rfl⟩ := List.length_eq_three.mp hs3
  have h0f0 : (0 : Nat) ∉ f0 := (hfm f0 (by simp)).2
  have h0f1 : (0 : Nat) ∉ f1 := (hfm f1 (by simp)).2
  have h0f2 : (0 : Nat) ∉ f2 := (hfm f2 (by simp)).2
  have h0r0 : (0 : Nat) ∉ r0 := (hrm r0 (by simp)).2
  have h0r1 : (0 : Nat) ∉ r1 := (hrm r1 (by simp)).2
  have h0r2 : (0 : Nat) ∉ r2 := (hrm r2 (by simp)).2
  cases x <;> cases y <;> cases z <;>
    simp [serializePayload, deserializePayload, boolByte, List.cons_append, List.append_assoc,
      parseCStr_append, hpw0, htl0, h0f0, h0f1, h0f2, h0r0, h0r1, h0r2, List.getD]

/-- Witness for `serialize_roundtrip` at the default configuration over
an arbitrary old record. -/
theorem serialize_roundtrip_witness :
    deserializeFlash (saveFlash defaultConfig (List.replicate 1024 7)) = defaultConfig :=
  serialize_roundtrip defaultConfig (List.replicate 1024 7) (by decide) (by simp)

/-! ## Parser helper lemmas -/

theorem take_append_add (p x : List Nat) (m : Nat) :
    (p ++ x).take (p.length + m) = p ++ x.take m := by
  rw [List.take_append_eq_append_take]
  simp

theorem drop_append_add (p x : List Nat) (m : Nat) :
    (p ++ x).drop (p.length + m) = x.drop m := by
  rw [List.drop_append_eq_append_drop]
  simp

theorem append_ne_of_take_two (a b t : List Nat) (h2 : 2 ≤ a.length)
    (h : a.take 2 ≠ b.take 2) : a ++ t ≠ b := by
  intro he
  exact h (by rw [← he, List.take_append_of_le_length h2])

/-- A command check that matches forces the first six characters of the
body to be the password it was built from. -/
theorem cmdMatch_take6 (body q w : List Nat) (hq : q.length = 6) (h : cmdMatch body q w) :
    body.take 6 = q := by
  unfold cmdMatch strncmpEq at h
  have h6 := congrArg (List.take 6) h
  rw [List.take_take, List.take_take, Nat.min_def] at h6
  simp only [show (6 : Nat) ≤ 6 + w.length by omega, if_pos] at h6
  rw [h6, List.take_append_of_le_length (by omega), ← hq, List.take_length]

/-- For a body of the form `p ++ (v ++ x)` with a six-character leading
password, a command check against any six-character password `q` and
verb `w` forces the rest of the body to start with `w`. -/
theorem cmdMatch_reduce (p q v x w : List Nat) (hp : p.length = 6) (hq : q.length = 6)
    (h : cmdMatch (p ++ (v ++ x)) q w) : (v ++ x).take w.length = w := by
  unfold cmdMatch strncmpEq at h
  rw [show (6 : Nat) + w.length = p.length + w.length by rw [hp]] at h
  rw [take_append_add] at h
  rw [show p.length + w.length = q.length + w.length by rw [hp, hq], take_append_add,
    List.take_length] at h
  have hd := congrArg (List.drop 6) h
  rwa [show (6 : Nat) = p.length from hp.symm, List.drop_left, show p.length = q.length by
    rw [hp, hq], List.drop_left] at hd

/-- A command check always succeeds on the body built from the same
password and verb. -/
theorem cmdMatch_self (p v x : List Nat) (hp : p.length = 6) :
    cmdMatch (p ++ (v ++ x)) p v := by
  unfold cmdMatch strncmpEq
  rw [show (6 : Nat) + v.length = p.length + v.length by rw [hp], take_append_add,
    take_append_add, List.take_left, List.take_length]

theorem brSignal_not (body : List Nat) (a : PState × Bool)
    (h : ¬ cmdMatch body a.1.cfg.passw vSignal) : brSignal body a = a := by
  unfold brSignal
  rw [if_neg h]

theorem brTel_not (body : List Nat) (a : PState × Bool)
    (h : ¬ cmdMatch body a.1.cfg.passw vTel) : brTel body a = a := by
  unfold brTel
  rw [if_neg h]

theorem brPw_not (body : List Nat) (a : PState × Bool)
    (h : ¬ cmdMatch body a.1.cfg.passw vPw) : brPw body a = a := by
  unfold brPw
  rw [if_neg h]

theorem brPin_not (body : List Nat) (a : PState × Bool)
    (h : ¬ cmdMatch body a.1.cfg.passw vSMSon) : brPin body a = a := by
  unfold brPin
  rw [if_neg h]

theorem brMsg_not (body : List Nat) (a : PState × Bool)
    (h : ¬ cmdMatch body a.1.cfg.passw vMsgTxt) : brMsg body a = a := by
  unfold brMsg
  rw [if_neg h]

theorem brDefaults_not (body : List Nat) (a : PState × Bool)
    (h : ¬ cmdMatch body a.1.cfg.passw vDefaults) : brDefaults body a = a := by
  unfold brDefaults
  rw [if_neg h]

/-! ## C3: wrong password is silently ignored -/

/-- C3: an SMS body whose first six characters differ from the current
password changes nothing in the parser state: no configuration field is
mutated, the dirty flag is untouched, no reply is staged and the
multi-stage action slot is unchanged. -/
theorem wrong_password_ignored (st : PState) (body : List Nat)
    (hp6 : st.cfg.passw.length = 6) (h : body.take 6 ≠ st.cfg.passw) :
    smsParse st body = st := by
  have hno : ∀ w : List Nat, ¬ cmdMatch body st.cfg.passw w :=
    fun w hcm => h (cmdMatch_take6 body st.cfg.passw w hp6 hcm)
  have hr0 : decide (strncmpEq body st.cfg.passw 6) = false := by
    apply decide_eq_false
    unfold strncmpEq
    have hq : st.cfg.passw.take 6 = st.cfg.passw := by
      rw [← hp6]
      exact List.take_length _
    rw [hq]
    exact h
  unfold smsParse
  rw [brSignal_not _ _ (hno vSignal), brTel_not _ _ (hno vTel), brPw_not _ _ (hno vPw),
    brPin_not _ _ (hno vSMSon), brMsg_not _ _ (hno vMsgTxt), brDefaults_not _ _ (hno vDefaults)]
  unfold brFinal
  rw [hr0]
  simp

/-- Witness for `wrong_password_ignored`. -/
theorem wrong_password_ignored_witness :
    smsParse ⟨defaultConfig, false, 0, List.replicate 10 []⟩ (strB "111111 Signal?") =
      ⟨defaultConfig, false, 0, List.replicate 10 []⟩ :=
  wrong_password_ignored ⟨defaultConfig, false, 0, List.replicate 10 []⟩ (strB "111111 Signal?")
    (by decide) (by decide)

/-! ## C4: Password! argument validation -/

/-- C4: a `Password!` command with correct password prefix whose argument
is not exactly 6 characters long stages the error reply
`"Error. Invalid password (needs to be 6 characters)"` and leaves the
stored password (and the dirty flag) unchanged; with a 6-character
argument the password is replaced, the configuration is marked dirty
and `"Ok. Changed password"` is staged. -/
theorem password_cmd (st : PState) (arg : List Nat)
    (hp6 : st.cfg.passw.length = 6) (hm : st.multi_stage_message.length = 10) :
    (arg.length ≠ 6 →
      (smsParse st (st.cfg.passw ++ (vPw ++ arg))).cfg.passw = st.cfg.passw ∧
      (smsParse st (st.cfg.passw ++ (vPw ++ arg))).multi_stage_message.getD 3 [] =
        strB "Error. Invalid password (needs to be 6 characters)" ∧
      (smsParse st (st.cfg.passw ++ (vPw ++ arg))).multi_stage_handling_type = 3 ∧
      (smsParse st (st.cfg.passw ++ (vPw ++ arg))).store_new_flash_settings =
        st.store_new_flash_settings) ∧
    (arg.length = 6 →
      (smsParse st (st.cfg.passw ++ (vPw ++ arg))).cfg.passw = arg ∧
      (smsParse st (st.cfg.passw ++ (vPw ++ arg))).store_new_flash_settings = true ∧
      (smsParse st (st.cfg.passw ++ (vPw ++ arg))).multi_stage_message.getD 3 [] =
        strB "Ok. Changed password" ∧
      (smsParse st (st.cfg.passw ++ (vPw ++ arg))).multi_stage_handling_type = 3) := by
  have hS : (vPw ++ arg).take vSignal.length ≠ vSignal := by
    rw [List.take_append_of_le_length (by decide)]
    decide
  have hT : (vPw ++ arg).take vTel.length ≠ vTel := by
    rw [show vTel.length = vPw.length + 7 from by decide, take_append_add]
    exact append_ne_of_take_two _ _ _ (by decide) (by decide)
  have hSM : (vPw ++ arg).take vSMSon.length ≠ vSMSon := by
    rw [show vSMSon.length = vPw.length + 2 from by decide, take_append_add]
    exact append_ne_of_take_two _ _ _ (by decide) (by decide)
  have hMT : (vPw ++ arg).take vMsgTxt.length ≠ vMsgTxt := by
    rw [show vMsgTxt.length = vPw.length + 3 from by decide, take_append_add]
    exact append_ne_of_take_two _ _ _ (by decide) (by decide)
  have hD : (vPw ++ arg).take vDefaults.length ≠ vDefaults := by
    rw [List.take_append_of_le_length (by decide)]
    decide
  have hmatch : cmdMatch (st.cfg.passw ++ (vPw ++ arg)) st.cfg.passw vPw :=
    cmdMatch_self _ _ _ hp6
  have hdrop : (st.cfg.passw ++ (vPw ++ arg)).drop (6 + vPw.length) = arg := by
    rw [show (6 : Nat) + vPw.length = st.cfg.passw.length + vPw.length by rw [hp6],
      drop_append_add, List.drop_left]
  constructor
  · intro hne
    have hres : smsParse st (st.cfg.passw ++ (vPw ++ arg)) =
        { st with
            multi_stage_handling_type := 3
            multi_stage_message := st.multi_stage_message.set 3
              (strB "Error. Invalid password (needs to be 6 characters)") } := by
      unfold smsParse
      rw [brSignal_not _ _ (fun hc => hS (cmdMatch_reduce _ _ _ _ _ hp6 hp6 hc)),
        brTel_not _ _ (fun hc => hT (cmdMatch_reduce _ _ _ _ _ hp6 hp6 hc))]
      unfold brPw
      rw [if_pos hmatch, hdrop, if_neg hne]
      rw [brPin_not _ _ (fun hc => hSM (cmdMatch_reduce _ _ _ _ _ hp6 hp6 hc)),
        brMsg_not _ _ (fun hc => hMT (cmdMatch_reduce _ _ _ _ _ hp6 hp6 hc)),
        brDefaults_not _ _ (fun hc => hD (cmdMatch_reduce _ _ _ _ _ hp6 hp6 hc))]
      unfold brFinal
      simp
    rw [hres]
    exact ⟨rfl, getD_set_self _ 3 _ [] (by omega), rfl, rfl⟩
  · intro heq
    have hres : smsParse st (st.cfg.passw ++ (vPw ++ arg)) =
        { st with
            cfg := { st.cfg with passw := arg }
            store_new_flash_settings := true
            multi_stage_handling_type := 3
            multi_stage_message := st.multi_stage_message.set 3 (strB "Ok. Changed password") } := by
      unfold smsParse
      rw [brSignal_not _ _ (fun hc => hS (cmdMatch_reduce _ _ _ _ _ hp6 hp6 hc)),
        brTel_not _ _ (fun hc => hT (cmdMatch_reduce _ _ _ _ _ hp6 hp6 hc))]
      unfold brPw
      rw [if_pos hmatch, hdrop, if_pos heq]
      rw [brPin_not _ _ (fun hc => hSM (cmdMatch_reduce _ _ _ _ _ hp6 heq hc)),
        brMsg_not _ _ (fun hc => hMT (cmdMatch_reduce _ _ _ _ _ hp6 heq hc)),
        brDefaults_not _ _ (fun hc => hD (cmdMatch_reduce _ _ _ _ _ hp6 heq hc))]
      unfold brFinal
      simp
    rw [hres]
    exact ⟨rfl, rfl, getD_set_self _ 3 _ [] (by omega), rfl⟩

/-- Witness for `password_cmd`: a 5-character and a 6-character
argument for the default password. -/
theorem password_cmd_witness :
    (((5 : Nat) ≠ 6 →
      (smsParse ⟨defaultConfig, false, 0, List.replicate 10 []⟩
        (strB "674358 Password!abcde")).cfg.passw = strB "674358" ∧
      (smsParse ⟨defaultConfig, false, 0, List.replicate 10 []⟩
        (strB "674358 Password!abcde")).multi_stage_message.getD 3 [] =
          strB "Error. Invalid password (needs to be 6 characters)") ∧
    ((smsParse ⟨defaultConfig, false, 0, List.replicate 10 []⟩
        (strB "674358 Password!abcdef")).cfg.passw = strB "abcdef" ∧
      (smsParse ⟨defaultConfig, false, 0, List.replicate 10 []⟩
        (strB "674358 Password!abcdef")).multi_stage_message.getD 3 [] =
          strB "Ok. Changed password")) := by
  have h5 := password_cmd ⟨defaultConfig, false, 0, List.replicate 10 []⟩ (strB "abcde")
    (by decide) (by decide)
  have h6 := password_cmd ⟨defaultConfig, false, 0, List.replicate 10 []⟩ (strB "abcdef")
    (by decide) (by decide)
  have e5 : strB "674358" ++ (vPw ++ strB "abcde") = strB "674358 Password!abcde" := by decide
  have e6 : strB "674358" ++ (vPw ++ strB "abcdef") = strB "674358 Password!abcdef" := by decide
  refine ⟨fun hne => ?_, ?_⟩
  · have := h5.1 (by decide)
    rw [show (⟨defaultConfig, false, 0, List.replicate 10 []⟩ : PState).cfg.passw =
      strB "674358" from rfl, e5] at this
    exact ⟨this.1, this.2.1⟩
  · have := h6.2 (by decide)
    rw [show (⟨defaultConfig, false, 0, List.replicate 10 []⟩ : PState).cfg.passw =
      strB "674358" from rfl, e6] at this
    exact ⟨this.1, this.2.2.1⟩

/-! ## C9: SMSonInput! argument validation -/

theorem cAt_append (a b : List Nat) (i : Nat) : cAt (a ++ b) (a.length + i) = cAt b i := by
  simp [cAt, List.getD, List.getElem?_append_right]

/-- C9: an `SMSonInput!` command toggles `send_sms_on_change[i]` and
stages the confirmation exactly when its argument is a single digit in
`1..3` immediately followed by the end of the string; in every other
case (including an extra character after an in-range digit) the
invalid-input-number error reply is staged and the notify flags are
unchanged. -/
theorem sms_on_input_cmd (st : PState) (arg : List Nat)
    (hp6 : st.cfg.passw.length = 6) (hm : st.multi_stage_message.length = 10)
    (ha0 : 0 ∉ arg) :
    (∀ d : Nat, arg = [d] → 49 ≤ d → d ≤ 51 →
      (smsParse st (st.cfg.passw ++ (vSMSon ++ arg))).cfg.send_sms_on_change =
        st.cfg.send_sms_on_change.set (d - 49)
          (!(st.cfg.send_sms_on_change.getD (d - 49) false)) ∧
      (smsParse st (st.cfg.passw ++ (vSMSon ++ arg))).store_new_flash_settings = true ∧
      (smsParse st (st.cfg.passw ++ (vSMSon ++ arg))).multi_stage_handling_type = 4 ∧
      (smsParse st (st.cfg.passw ++ (vSMSon ++ arg))).multi_stage_message.getD 4 [] =
        strB "Ok. Input " ++ [d] ++ strB " will " ++
          (if !(st.cfg.send_sms_on_change.getD (d - 49) false) then [] else strB "not ") ++
          strB "trigger SMS from now on") ∧
    (¬ (∃ d : Nat, arg = [d] ∧ 49 ≤ d ∧ d ≤ 51) →
      (smsParse st (st.cfg.passw ++ (vSMSon ++ arg))).cfg = st.cfg ∧
      (smsParse st (st.cfg.passw ++ (vSMSon ++ arg))).multi_stage_message.getD 4 [] =
        strB "Error. Invalid input number (must be 1-3)" ∧
      (smsParse st (st.cfg.passw ++ (vSMSon ++ arg))).multi_stage_handling_type = 4 ∧
      (smsParse st (st.cfg.passw ++ (vSMSon ++ arg))).store_new_flash_settings =
        st.store_new_flash_settings) := by
  have hS : (vSMSon ++ arg).take vSignal.length ≠ vSignal := by
    rw [List.take_append_of_le_length (by decide)]
    decide
  have hT : (vSMSon ++ arg).take vTel.length ≠ vTel := by
    rw [show vTel.length = vSMSon.length + 5 from by decide, take_append_add]
    exact append_ne_of_take_two _ _ _ (by decide) (by decide)
  have hP : (vSMSon ++ arg).take vPw.length ≠ vPw := by
    rw [List.take_append_of_le_length (by decide)]
    decide
  have hMT : (vSMSon ++ arg).take vMsgTxt.length ≠ vMsgTxt := by
    rw [show vMsgTxt.length = vSMSon.length + 1 from by decide, take_append_add]
    exact append_ne_of_take_two _ _ _ (by decide) (by decide)
  have hD : (vSMSon ++ arg).take vDefaults.length ≠ vDefaults := by
    rw [List.take_append_of_le_length (by decide)]
    decide
  have hmatch : cmdMatch (st.cfg.passw ++ (vSMSon ++ arg)) st.cfg.passw vSMSon :=
    cmdMatch_self _ _ _ hp6
  have h18 : cAt (st.cfg.passw ++ (vSMSon ++ arg)) 18 = cAt arg 0 := by
    rw [show (18 : Nat) = st.cfg.passw.length + 12 by rw [hp6], cAt_append,
      show (12 : Nat) = vSMSon.length + 0 from by decide, cAt_append]
  have h19 : cAt (st.cfg.passw ++ (vSMSon ++ arg)) 19 = cAt arg 1 := by
    rw [show (19 : Nat) = st.cfg.passw.length + 13 by rw [hp6], cAt_append,
      show (13 : Nat) = vSMSon.length + 1 from by decide, cAt_append]
  constructor
  · intro d hd h49 h51
    subst hd
    have hres : smsParse st (st.cfg.passw ++ (vSMSon ++ [d])) =
        { st with
            cfg := { st.cfg with send_sms_on_change := (st.cfg.send_sms_on_change.set (d - 49) (!(st.cfg.send_sms_on_change.getD (d - 49) false))) }
            store_new_flash_settings := true
            multi_stage_handling_type := 4
            multi_stage_message := st.multi_stage_message.set 4
              (strB "Ok. Input " ++ [49 + (d - 49)] ++ strB " will " ++
                (if !(st.cfg.send_sms_on_change.getD (d - 49) false) then [] else strB "not ") ++
                strB "trigger SMS from now on") } := by
      unfold smsParse
      rw [brSignal_not _ _ (fun hc => hS (cmdMatch_reduce _ _ _ _ _ hp6 hp6 hc)),
        brTel_not _ _ (fun hc => hT (cmdMatch_reduce _ _ _ _ _ hp6 hp6 hc)),
        brPw_not _ _ (fun hc => hP (cmdMatch_reduce _ _ _ _ _ hp6 hp6 hc))]
      unfold brPin
      rw [if_pos hmatch, h18, h19]
      rw [if_pos ⟨by simp [cAt]; omega, by simp [cAt]; omega, by simp [cAt]⟩]
      rw [show ((cAt [d] 0 : Int) - 49).toNat = d - 49 by simp [cAt]; omega]
      rw [brMsg_not _ _ (fun hc => hMT (cmdMatch_reduce _ _ _ _ _ hp6 hp6 hc)),
        brDefaults_not _ _ (fun hc => hD (cmdMatch_reduce _ _ _ _ _ hp6 hp6 hc))]
      unfold brFinal
      simp
    rw [hres]
    refine ⟨rfl, rfl, rfl, ?_⟩
    rw [getD_set_self _ 4 _ [] (by omega), show 49 + (d - 49) = d by omega]
  · intro hne
    have hcond : ¬ (0 ≤ (cAt arg 0 : Int) - 49 ∧ (cAt arg 0 : Int) - 49 < 3 ∧ cAt arg 1 = 0) := by
      rcases arg with _ | ⟨d, _ | ⟨e, rest⟩⟩
      · intro h
        have h1 := h.1
        simp [cAt] at h1
      · intro h
        have h1 := h.1
        have h2 := h.2.1
        simp [cAt] at h1 h2
        exact hne ⟨d, rfl, by omega, by omega⟩
      · intro h
        have he : e ≠ 0 := fun h0 => ha0 (by simp [h0])
        have h3 := h.2.2
        simp [cAt] at h3
        exact he h3
    have hres : smsParse st (st.cfg.passw ++ (vSMSon ++ arg)) =
        { st with
            multi_stage_handling_type := 4
            multi_stage_message := st.multi_stage_message.set 4
              (strB "Error. Invalid input number (must be 1-3)") } := by
      unfold smsParse
      rw [brSignal_not _ _ (fun hc => hS (cmdMatch_reduce _ _ _ _ _ hp6 hp6 hc)),
        brTel_not _ _ (fun hc => hT (cmdMatch_reduce _ _ _ _ _ hp6 hp6 hc)),
        brPw_not _ _ (fun hc => hP (cmdMatch_reduce _ _ _ _ _ hp6 hp6 hc))]
      unfold brPin
      rw [if_pos hmatch, h18, h19]
      rw [if_neg hcond]
      rw [brMsg_not _ _ (fun hc => hMT (cmdMatch_reduce _ _ _ _ _ hp6 hp6 hc)),
        brDefaults_not _ _ (fun hc => hD (cmdMatch_reduce _ _ _ _ _ hp6 hp6 hc))]
      unfold brFinal
      simp
    rw [hres]
    exact ⟨rfl, getD_set_self _ 4 _ [] (by omega), rfl, rfl⟩

/-- Witness for `sms_on_input_cmd`: `"674358 SMSonInput!2"` toggles
pin 2, `"674358 SMSonInput!1x"` is rejected. -/
theorem sms_on_input_cmd_witness :
    ((smsParse ⟨defaultConfig, false, 0, List.replicate 10 []⟩
        (strB "674358 SMSonInput!2")).cfg.send_sms_on_change = [true, false, true] ∧
      (smsParse ⟨defaultConfig, false, 0, List.replicate 10 []⟩
        (strB "674358 SMSonInput!2")).multi_stage_message.getD 4 [] =
          strB "Ok. Input 2 will not trigger SMS from now on") ∧
    ((smsParse ⟨defaultConfig, false, 0, List.replicate 10 []⟩
        (strB "674358 SMSonInput!1x")).cfg = defaultConfig ∧
      (smsParse ⟨defaultConfig, false, 0, List.replicate 10 []⟩
        (strB "674358 SMSonInput!1x")).multi_stage_message.getD 4 [] =
          strB "Error. Invalid input number (must be 1-3)") := by
  have h2 := sms_on_input_cmd ⟨defaultConfig, false, 0, List.replicate 10 []⟩ (strB "2")
    (by decide) (by decide) (by decide)
  have h1x := sms_on_input_cmd ⟨defaultConfig, false, 0, List.replicate 10 []⟩ (strB "1x")
    (by decide) (by decide) (by decide)
  have e2 : strB "674358" ++ (vSMSon ++ strB "2") = strB "674358 SMSonInput!2" := by decide
  have e1x : strB "674358" ++ (vSMSon ++ strB "1x") = strB "674358 SMSonInput!1x" := by decide
  constructor
  · have := h2.1 50 (by decide) (by decide) (by decide)
    rw [show (⟨defaultConfig, false, 0, List.replicate 10 []⟩ : PState).cfg.passw =
      strB "674358" from rfl, e2] at this
    exact ⟨by rw [this.1]; decide, by rw [this.2.2.2]; decide⟩
  · have := h1x.2 (by
      rintro ⟨d, hd, h49, h51⟩
      have hlen : (strB "1x").length = 1 := by rw [hd]; rfl
      exact absurd hlen (by decide))
    rw [show (⟨defaultConfig, false, 0, List.replicate 10 []⟩ : PState).cfg.passw =
      strB "674358" from rfl, e1x] at this
    exact ⟨this.1, this.2.1⟩

/-! ## C5: OK / ERROR classification is by prefix, not exact match -/

/-- C5 counterexample: the stripped line `"OKAY"` is not the string
`"OK"`, yet the classifier marks it kind OK (`strncmp(str, "OK", 2)`
only compares the first two characters). -/
theorem ok_exact_match_cex : lineKind (strB "OKAY") = 0 ∧ strB "OKAY" ≠ strB "OK" := by
  decide

/-- When neither the OK nor the ERROR prefix matches, every remaining
classifier branch yields a kind of at least 2. -/
theorem lineKind_ge_two (s : List Nat) (h1 : ¬ strncmpEq s (strB "OK") 2)
    (h2 : ¬ strncmpEq s (strB "ERROR") 5) : 2 ≤ lineKind s := by
  unfold lineKind
  rw [if_neg h1, if_neg h2]
  split_ifs <;> omega

/-- C5 amended: a line is classified OK iff its first two characters are
`"OK"`, and ERROR iff its first five characters are `"ERROR"` — prefix
matches, not exact matches. -/
theorem ok_error_classify (s : List Nat) :
    (lineKind s = 0 ↔ s.take 2 = strB "OK") ∧ (lineKind s = 1 ↔ s.take 5 = strB "ERROR") := by
  have hc1 : strncmpEq s (strB "OK") 2 ↔ s.take 2 = strB "OK" := by
    unfold strncmpEq
    rw [show (strB "OK").take 2 = strB "OK" from by decide]
  have hc2 : strncmpEq s (strB "ERROR") 5 ↔ s.take 5 = strB "ERROR" := by
    unfold strncmpEq
    rw [show (strB "ERROR").take 5 = strB "ERROR" from by decide]
  have hERO : s.take 5 = strB "ERROR" → ¬ s.take 2 = strB "OK" := by
    intro h hx
    have h2 : (s.take 5).take 2 = strB "OK" := by
      rw [List.take_take]
      simpa using hx
    rw [h] at h2
    exact absurd h2 (by decide)
  by_cases h1 : strncmpEq s (strB "OK") 2
  · have hv : lineKind s = 0 := by
      unfold lineKind
      rw [if_pos h1]
    rw [hv]
    exact ⟨iff_of_true rfl (hc1.mp h1), iff_of_false (by decide) (fun hx => hERO hx (hc1.mp h1))⟩
  · by_cases h2 : strncmpEq s (strB "ERROR") 5
    · have hv : lineKind s = 1 := by
        unfold lineKind
        rw [if_neg h1, if_pos h2]
      rw [hv]
      exact ⟨iff_of_false (by decide) (fun hx => h1 (hc1.mpr hx)), iff_of_true rfl (hc2.mp h2)⟩
    · have hge := lineKind_ge_two s h1 h2
      exact ⟨iff_of_false (by omega) (fun hx => h1 (hc1.mpr hx)),
        iff_of_false (by omega) (fun hx => h2 (hc2.mpr hx))⟩

/-- Witness for `ok_error_classify` at the line `"OK"`. -/
theorem ok_error_classify_witness :
    (lineKind (strB "OK") = 0 ↔ (strB "OK").take 2 = strB "OK") ∧
    (lineKind (strB "OK") = 1 ↔ (strB "OK").take 5 = strB "ERROR") :=
  ok_error_classify (strB "OK")

/-! ## C10: a completed CMGR read-out always awaits the final OK -/

/-- C10: whenever the CMGR handler fires (header received, CMGR awaited,
body received), it sets `awaiting_response[OK]` and stamps
`initiate_time[OK]` with the current time — before and regardless of
how the SMS body parses, so even a silently-ignored SMS leaves the
dialogue busy until that OK arrives or times out. -/
theorem cmgr_awaits_ok (s : LoopState) (inp : Input)
    (hw : s.awaiting_response.length = 12) (hi : s.initiate_time.length = 12)
    (h9 : s.received.getD 9 false = true) (ha : s.awaiting_response.getD 9 false = true)
    (hs : s.received_sms = true) :
    (cmgrBlock s inp).awaiting_response.getD 0 false = true ∧
    (cmgrBlock s inp).initiate_time.getD 0 0 = inp.now := by
  unfold cmgrBlock
  rw [if_pos ⟨h9, ha, hs⟩]
  constructor
  · show (((s.awaiting_response.set 9 false).set 0 true).set 11 true).getD 0 false = true
    rw [getD_set_other _ _ _ (by omega), getD_set_self _ 0 _ false (by simp [hw])]
  · show (s.initiate_time.set 0 inp.now).getD 0 0 = inp.now
    exact getD_set_self _ 0 _ 0 (by omega)

/-- Witness for `cmgr_awaits_ok` at a concrete state with a pending CMGR
read-out carrying a wrong-password SMS body. -/
theorem cmgr_awaits_ok_witness :
    (cmgrBlock
      { baseState with received := (List.replicate 12 false).set 9 true, awaiting_response := (List.replicate 12 false).set 9 true, received_sms := true, received_sms_text := strB "999999 nonsense" }
      ⟨5000000, none, [true, true, true], true⟩).awaiting_response.getD 0 false = true ∧
    (cmgrBlock
      { baseState with received := (List.replicate 12 false).set 9 true, awaiting_response := (List.replicate 12 false).set 9 true, received_sms := true, received_sms_text := strB "999999 nonsense" }
      ⟨5000000, none, [true, true, true], true⟩).initiate_time.getD 0 0 = 5000000 :=
  cmgr_awaits_ok _ _ (by decide) (by decide) (by decide) (by decide) (by decide)

/-! ## C8: per-kind timeouts -/

theorem timeoutOne_initiate (now : Int) (s : LoopState) (i : Nat) :
    (timeoutOne now s i).initiate_time = s.initiate_time := by
  unfold timeoutOne
  split_ifs <;> rfl

theorem timeoutOne_length (now : Int) (s : LoopState) (i : Nat) :
    (timeoutOne now s i).awaiting_response.length = s.awaiting_response.length := by
  unfold timeoutOne
  split_ifs <;> simp

theorem timeoutOne_awaiting_other (now : Int) (s : LoopState) (i j : Nat) (h : i ≠ j) :
    (timeoutOne now s i).awaiting_response.getD j false = s.awaiting_response.getD j false := by
  unfold timeoutOne
  split_ifs <;> first | rfl | exact getD_set_other _ _ _ h

theorem timeoutOne_self (now : Int) (s : LoopState) (i : Nat)
    (hlen : s.awaiting_response.length = 12) (hi : i < 12)
    (ht : now - s.initiate_time.getD i 0 > deadline i) :
    (timeoutOne now s i).awaiting_response.getD i false = false := by
  unfold timeoutOne
  by_cases ha : s.awaiting_response.getD i false = true
  · rw [if_pos ⟨ht, ha⟩]
    split_ifs <;> exact getD_set_self _ i _ false (by omega)
  · rw [if_neg (fun hc => ha hc.2)]
    simpa using ha

theorem timeoutOne_slot_other (now : Int) (s : LoopState) (i : Nat) (h : i ≠ 9) :
    (timeoutOne now s i).multi_stage_handling_type = s.multi_stage_handling_type := by
  unfold timeoutOne
  by_cases h1 : now - s.initiate_time.getD i 0 > deadline i ∧
      s.awaiting_response.getD i false = true
  · rw [if_pos h1, if_neg h]
  · rw [if_neg h1]

theorem timeoutFold_initiate (L : List Nat) (now : Int) (s : LoopState) :
    (L.foldl (timeoutOne now) s).initiate_time = s.initiate_time := by
  induction L generalizing s with
  | nil => rfl
  | cons i t ih => rw [List.foldl_cons, ih, timeoutOne_initiate]

theorem timeoutFold_length (L : List Nat) (now : Int) (s : LoopState) :
    (L.foldl (timeoutOne now) s).awaiting_response.length = s.awaiting_response.length := by
  induction L generalizing s with
  | nil => rfl
  | cons i t ih => rw [List.foldl_cons, ih, timeoutOne_length]

theorem timeoutFold_stays_false (L : List Nat) (now : Int) (s : LoopState) (k : Nat)
    (h : s.awaiting_response.getD k false = false) :
    (L.foldl (timeoutOne now) s).awaiting_response.getD k false = false := by
  induction L generalizing s with
  | nil => exact h
  | cons i t ih =>
    rw [List.foldl_cons]
    by_cases hik : i = k
    · subst hik
      refine ih _ ?_
      unfold timeoutOne
      rw [if_neg (fun hc => by rw [h] at hc; exact Bool.false_ne_true hc.2)]
      exact h
    · exact ih _ ((timeoutOne_awaiting_other now s i k hik).trans h)

theorem timeoutFold_clears (L : List Nat) (now : Int) (s : LoopState) (k : Nat)
    (hmem : k ∈ L) (hlen : s.awaiting_response.length = 12) (hk : k < 12)
    (ht : now - s.initiate_time.getD k 0 > deadline k) :
    (L.foldl (timeoutOne now) s).awaiting_response.getD k false = false := by
  induction L generalizing s with
  | nil => cases hmem
  | cons i t ih =>
    rw [List.foldl_cons]
    by_cases hik : i = k
    · subst hik
      exact timeoutFold_stays_false t now _ i (timeoutOne_self now s i hlen hk ht)
    · rcases List.mem_cons.mp hmem with hek | hmem'
      · exact absurd hek.symm hik
      · refine ih _ hmem' ?_ ?_
        · rw [timeoutOne_length]
          exact hlen
        · rw [timeoutOne_initiate]
          exact ht

theorem timeoutFold_slot_keep (L : List Nat) (now : Int) (s : LoopState)
    (h : ¬ (now - s.initiate_time.getD 9 0 > deadline 9 ∧
        s.awaiting_response.getD 9 false = true)) :
    (L.foldl (timeoutOne now) s).multi_stage_handling_type = s.multi_stage_handling_type := by
  induction L generalizing s with
  | nil => rfl
  | cons i t ih =>
    rw [List.foldl_cons]
    by_cases hi9 : i = 9
    · subst hi9
      have hid : timeoutOne now s 9 = s := by
        unfold timeoutOne
        exact if_neg h
      rw [hid]
      exact ih s h
    · rw [ih _ (by
        rw [timeoutOne_initiate, timeoutOne_awaiting_other now s i 9 hi9]
        exact h)]
      exact timeoutOne_slot_other now s i hi9

theorem timeoutFold_slot_clear (L : List Nat) (now : Int) (s : LoopState)
    (hmem : 9 ∈ L) (hlen : s.awaiting_response.length = 12)
    (h : now - s.initiate_time.getD 9 0 > deadline 9 ∧
        s.awaiting_response.getD 9 false = true) :
    (L.foldl (timeoutOne now) s).multi_stage_handling_type = 0 := by
  induction L generalizing s with
  | nil => cases hmem
  | cons i t ih =>
    rw [List.foldl_cons]
    by_cases hi9 : i = 9
    · subst hi9
      have hfires : timeoutOne now s 9 =
          { s with awaiting_response := s.awaiting_response.set 9 false
                   multi_stage_handling_type := 0 } := by
        unfold timeoutOne
        rw [if_pos h]
        rfl
      rw [hfires]
      rw [timeoutFold_slot_keep t now _ (by
        intro hc
        have h9 : ((s.awaiting_response.set 9 false).getD 9 false) = false :=
          getD_set_self _ 9 _ false (by omega)
        rw [h9] at hc
        exact Bool.false_ne_true hc.2)]
    · rcases List.mem_cons.mp hmem with hek | hmem'
      · exact absurd hek.symm hi9
      · rw [ih _ hmem' (by
          rw [timeoutOne_length]
          exact hlen) (by
          rw [timeoutOne_initiate, timeoutOne_awaiting_other now s i 9 hi9]
          exact h)]

/-- C8: for every response kind `k` in the timeout loop's range
(`0 ≤ k ≤ 10`; index 11 is the recomputed aggregate, not an awaited
kind), once the elapsed time since `initiate_time[k]` exceeds the
per-kind deadline (60 s for OK, 9 s for every other kind) the loop
clears `awaiting_response[k]`; and the multi-stage slot is reset to
idle by the loop exactly when the timed-out kind is CMGR (kind 9). -/
theorem timeout_policy (s : LoopState) (inp : Input) (k : Nat)
    (hlen : s.awaiting_response.length = 12) (hk : k < 11) :
    (s.awaiting_response.getD k false = true →
      inp.now - s.initiate_time.getD k 0 > deadline k →
      (timeoutBlock s inp).awaiting_response.getD k false = false) ∧
    ((timeoutBlock s inp).multi_stage_handling_type =
      if s.awaiting_response.getD 9 false = true ∧ inp.now - s.initiate_time.getD 9 0 > 9000000
      then 0 else s.multi_stage_handling_type) := by
  constructor
  · intro _ ht
    exact timeoutFold_clears (List.range 11) inp.now s k (List.mem_range.mpr hk) hlen
      (by omega) ht
  · by_cases h9 : s.awaiting_response.getD 9 false = true ∧
      inp.now - s.initiate_time.getD 9 0 > 9000000
    · rw [if_pos h9]
      exact timeoutFold_slot_clear (List.range 11) inp.now s (by decide) hlen
        ⟨by simpa [deadline] using h9.2, h9.1⟩
    · rw [if_neg h9]
      exact timeoutFold_slot_keep (List.range 11) inp.now s
        (fun hc => h9 ⟨hc.2, by simpa [deadline] using hc.1⟩)

/-- Witness for `timeout_policy`: an OK awaited since time 0 is cleared
at 61 s, and a CMGR awaited since time 0 has timed out, so the pending
action slot is reset. -/
theorem timeout_policy_witness :
    (({ baseState with awaiting_response := ((List.replicate 12 false).set 0 true).set 9 true, multi_stage_handling_type := 5 } : LoopState).awaiting_response.getD 0 false = true →
      (61000000 : Int) - ({ baseState with awaiting_response := ((List.replicate 12 false).set 0 true).set 9 true, multi_stage_handling_type := 5 } : LoopState).initiate_time.getD 0 0 > deadline 0 →
      (timeoutBlock { baseState with awaiting_response := ((List.replicate 12 false).set 0 true).set 9 true, multi_stage_handling_type := 5 } ⟨61000000, none, [true, true, true], true⟩).awaiting_response.getD 0 false = false) ∧
    ((timeoutBlock { baseState with awaiting_response := ((List.replicate 12 false).set 0 true).set 9 true, multi_stage_handling_type := 5 } ⟨61000000, none, [true, true, true], true⟩).multi_stage_handling_type =
      if ({ baseState with awaiting_response := ((List.replicate 12 false).set 0 true).set 9 true, multi_stage_handling_type := 5 } : LoopState).awaiting_response.getD 9 false = true ∧
        (61000000 : Int) - ({ baseState with awaiting_response := ((List.replicate 12 false).set 0 true).set 9 true, multi_stage_handling_type := 5 } : LoopState).initiate_time.getD 9 0 > 9000000
      then 0
      else ({ baseState with awaiting_response := ((List.replicate 12 false).set 0 true).set 9 true, multi_stage_handling_type := 5 } : LoopState).multi_stage_handling_type) :=
  timeout_policy
    { baseState with awaiting_response := ((List.replicate 12 false).set 0 true).set 9 true, multi_stage_handling_type := 5 }
    ⟨61000000, none, [true, true, true], true⟩ 0 (by decide) (by decide)

/-! ## C7: the pending-action-implies-busy invariant fails on OK timeout -/

/-- C7 counterexample: a reachable state of the control loop in which the
multi-stage action slot is non-idle (tag 3, a pending `Password!`
reply) while every `awaiting_response` flag is clear — the 60-second OK
timeout cleared `awaiting_response[OK]` but only a CMGR timeout resets
the slot. -/
theorem pending_not_busy_cex :
    Reach pendingNotBusyState ∧
    pendingNotBusyState.multi_stage_handling_type = 3 ∧
    pendingNotBusyState.awaiting_response = List.replicate 12 false := by
  refine ⟨?_, by decide, by decide⟩
  exact Reach.step _ idle5Input (Reach.step _ idle4Input (Reach.step _ smsInput
    (Reach.step _ cmgrInput (Reach.step _ cmtiInput (Reach.boot cexFlash 0 (by simp [cexFlash]))))))

/-- C7 amended: every handler that makes the multi-stage slot non-idle
sets an awaiting flag in the same step — the OK handler consuming a
pending action immediately awaits CSQ or CMGS, the CMGR handler awaits
the final OK, the CSQ and online-CPSI handlers await the final OK — so
the slot only *becomes* non-idle together with busy; but the invariant
is not preserved by timeouts: a non-CMGR timeout (such as the
60-second OK timeout) leaves the slot unchanged while clearing the
awaited flag, and only a CMGR timeout resets the slot. -/
theorem slot_nonidle_sets_busy (s : LoopState) (inp : Input)
    (hw : s.awaiting_response.length = 12) :
    (s.received.getD 0 false = true → s.awaiting_response.getD 0 false = true →
      s.multi_stage_handling_type ≠ 0 →
      (okBlock s inp).multi_stage_handling_type = 0 ∧
      ((okBlock s inp).awaiting_response.getD 5 false = true ∨
        (okBlock s inp).awaiting_response.getD 7 false = true)) ∧
    (s.received.getD 9 false = true → s.awaiting_response.getD 9 false = true →
      s.received_sms = true →
      (cmgrBlock s inp).awaiting_response.getD 0 false = true) ∧
    (s.received.getD 5 false = true → s.awaiting_response.getD 5 false = true →
      (csqBlock s inp).multi_stage_handling_type = 6 ∧
      (csqBlock s inp).awaiting_response.getD 0 false = true) ∧
    (s.received.getD 2 false = true → s.awaiting_response.getD 2 false = true →
      hasSub (s.received_response.getD 2 []) (strB "Online") = true →
      (cpsiBlock s inp).multi_stage_handling_type = 7 ∧
      (cpsiBlock s inp).awaiting_response.getD 0 false = true) ∧
    (¬ (s.awaiting_response.getD 9 false = true ∧
        inp.now - s.initiate_time.getD 9 0 > 9000000) →
      (timeoutBlock s inp).multi_stage_handling_type = s.multi_stage_handling_type) := by
  refine ⟨?_, ?_, ?_, ?_, ?_⟩
  · intro h0 ha hs
    unfold okBlock
    rw [if_pos ⟨h0, ha⟩]
    by_cases h1 : s.multi_stage_handling_type = 1
    · rw [if_pos h1]
      refine ⟨rfl, Or.inl ?_⟩
      show (((s.awaiting_response.set 0 false).set 5 true).set 11 true).getD 5 false = true
      rw [getD_set_other _ _ _ (by omega), getD_set_self _ 5 _ false (by simp [hw])]
    · rw [if_neg h1, if_pos hs]
      refine ⟨rfl, Or.inr ?_⟩
      show (((s.awaiting_response.set 0 false).set 7 true).set 11 true).getD 7 false = true
      rw [getD_set_other _ _ _ (by omega), getD_set_self _ 7 _ false (by simp [hw])]
  · intro h9 ha hs
    unfold cmgrBlock
    rw [if_pos ⟨h9, ha, hs⟩]
    show (((s.awaiting_response.set 9 false).set 0 true).set 11 true).getD 0 false = true
    rw [getD_set_other _ _ _ (by omega), getD_set_self _ 0 _ false (by simp [hw])]
  · intro h5 ha
    unfold csqBlock
    rw [if_pos ⟨h5, ha⟩]
    refine ⟨rfl, ?_⟩
    show (((s.awaiting_response.set 5 false).set 0 true).set 11 true).getD 0 false = true
    rw [getD_set_other _ _ _ (by omega), getD_set_self _ 0 _ false (by simp [hw])]
  · intro h2 ha hon
    unfold cpsiBlock
    rw [if_pos ⟨h2, ha⟩, if_pos hon]
    refine ⟨rfl, ?_⟩
    show (((s.awaiting_response.set 2 false).set 0 true).set 11 true).getD 0 false = true
    rw [getD_set_other _ _ _ (by omega), getD_set_self _ 0 _ false (by simp [hw])]
  · intro hno
    exact timeoutFold_slot_keep (List.range 11) inp.now s
      (fun hc => hno ⟨hc.2, by simpa [deadline] using hc.1⟩)

/-- Witness for `slot_nonidle_sets_busy` at `busyTestState`. -/
theorem slot_nonidle_sets_busy_witness :
    ((okBlock busyTestState busyTestInput).multi_stage_handling_type = 0 ∧
      ((okBlock busyTestState busyTestInput).awaiting_response.getD 5 false = true ∨
        (okBlock busyTestState busyTestInput).awaiting_response.getD 7 false = true)) ∧
    (cmgrBlock busyTestState busyTestInput).awaiting_response.getD 0 false = true ∧
    ((csqBlock busyTestState busyTestInput).multi_stage_handling_type = 6 ∧
      (csqBlock busyTestState busyTestInput).awaiting_response.getD 0 false = true) ∧
    ((cpsiBlock busyTestState busyTestInput).multi_stage_handling_type = 7 ∧
      (cpsiBlock busyTestState busyTestInput).awaiting_response.getD 0 false = true) ∧
    (timeoutBlock busyTestState busyTestInput).multi_stage_handling_type =
      busyTestState.multi_stage_handling_type := by
  have h := slot_nonidle_sets_busy busyTestState busyTestInput (by decide)
  exact ⟨h.1 (by decide) (by decide) (by decide),
    h.2.1 (by decide) (by decide) (by decide),
    h.2.2.1 (by decide) (by decide),
    h.2.2.2.1 (by decide) (by decide) (by decide),
    h.2.2.2.2 (by decide)⟩

/-! ## C6: the input scan dispatches one SMS per changed pin, in the same tick -/

/-- C6 counterexample: from the default post-boot state, a scan tick in
which pins 1 and 2 both read low (both activated, both notify-enabled)
hands *two* SMS bodies to `send_sms` within that single tick — the
`for` loop over the pins has no dialogue gate inside it, so the second
changed pin is not deferred to a later tick. -/
theorem scan_single_sms_cex :
    (scanBlock baseState scanCexInput).2 =
      [strB "Intruder alarm triggered", strB "Alarm system armed"] ∧
    ((scanBlock baseState scanCexInput).2).length = 2 :=
  ⟨by decide, by decide⟩

/-- C6 amended: when the scan gate passes (1 s cadence, dialogue idle),
*every* pin whose level changed and whose notification is enabled
dispatches its SMS within that same tick, in pin order; the captured
levels of all pins (changed or not, enabled or not) equal the freshly
observed activation levels afterwards, so no edge is lost. -/
theorem scan_dispatches_every_changed_pin (s : LoopState) (inp : Input)
    (hgate : inp.now - s.last_status_check_time > 1000000)
    (hidle : s.awaiting_response.getD 11 false = false)
    (a b c : Bool) (hls : s.last_status = [a, b, c])
    (p q r : Bool) (hpin : inp.pinLevels = [p, q, r]) :
    (scanBlock s inp).2 =
      ((if (!p) ≠ a ∧ s.cfg.send_sms_on_change.getD 0 false = true then
          [if !p then s.cfg.sms_on_fall.getD 0 [] else s.cfg.sms_on_rise.getD 0 []] else []) ++
       (if (!q) ≠ b ∧ s.cfg.send_sms_on_change.getD 1 false = true then
          [if !q then s.cfg.sms_on_fall.getD 1 [] else s.cfg.sms_on_rise.getD 1 []] else []) ++
       (if (!r) ≠ c ∧ s.cfg.send_sms_on_change.getD 2 false = true then
          [if !r then s.cfg.sms_on_fall.getD 2 [] else s.cfg.sms_on_rise.getD 2 []] else [])) ∧
    (scanBlock s inp).1.last_status = [!p, !q, !r] := by
  unfold scanBlock
  rw [if_pos ⟨hgate, hidle⟩]
  simp only [List.foldl_cons, List.foldl_nil]
  unfold scanPin
  simp only [hpin, hls]
  by_cases hc0 : (!p) = a <;> by_cases hc1 : (!q) = b <;> by_cases hc2 : (!r) = c <;>
    by_cases he0 : s.cfg.send_sms_on_change.getD 0 false = true <;>
    by_cases he1 : s.cfg.send_sms_on_change.getD 1 false = true <;>
    by_cases he2 : s.cfg.send_sms_on_change.getD 2 false = true <;>
    simp_all [List.set]

/-- Witness for `scan_dispatches_every_changed_pin`: the two-pin change
of the counterexample input dispatches both messages and captures all
three levels. -/
theorem scan_dispatches_every_changed_pin_witness :
    ((scanBlock baseState scanCexInput).2 =
      ((if (!false) ≠ false ∧ baseState.cfg.send_sms_on_change.getD 0 false = true then
          [if !false then baseState.cfg.sms_on_fall.getD 0 [] else baseState.cfg.sms_on_rise.getD 0 []] else []) ++
       (if (!false) ≠ false ∧ baseState.cfg.send_sms_on_change.getD 1 false = true then
          [if !false then baseState.cfg.sms_on_fall.getD 1 [] else baseState.cfg.sms_on_rise.getD 1 []] else []) ++
       (if (!true) ≠ false ∧ baseState.cfg.send_sms_on_change.getD 2 false = true then
          [if !true then baseState.cfg.sms_on_fall.getD 2 [] else baseState.cfg.sms_on_rise.getD 2 []] else []))) ∧
    (scanBlock baseState scanCexInput).1.last_status = [!false, !false, !true] :=
  scan_dispatches_every_changed_pin baseState scanCexInput (by decide) (by decide)
    false false false (by decide) false false true (by decide)

end AlarmDial
